import Mathlib

/-!
Shallow embedding of the leblango backend (Django / DRF) core logic:
the moderation workflow (`core/views_library_admin.py`), submission
intake and library search (`core/views_library.py`), public dictionary
search (`core/views_dictionary.py`), bulk importers
(`core/views_import.py`) and permission classes (`core/permissions.py`),
over the data model of `core/models.py`.

Conventions of the embedding:
- Database rows are Lean structures keeping the source field names;
  the database is an explicit `DB` state threaded through each view.
- Python `str.strip()` is `pyStrip`; Python `x or ""` on an optional
  string is `Option.getD`; truthiness of a string is non-emptiness.
- `int(...)` / `float(...)` on request parameters are modelled by
  `pyInt` / `pyFloat` (plain signed decimal literals with surrounding
  whitespace; any other string raises, modelled as `none`).
- Numeric literals are modelled exactly as rationals (`ℚ`).
- An unhandled Python exception inside a view is turned by
  `core/exceptions.custom_exception_handler` into an HTTP 500 response;
  the embedding models this as a `serverError500` outcome that leaves
  the database in the state it had when the exception was raised.
- PostgreSQL's `TrigramSimilarity` is an external database extension;
  views using it are parameterised by a function
  `sim : String → String → ℚ`.
-/

namespace Leblango

/-! ### Python string / number helpers -/

/-- Model of Python `str.strip()`: drop whitespace from both ends
(semantically `String.trim`, written over the character list so that
closed instances evaluate inside the kernel). -/
def pyStrip (s : String) : String :=
  ⟨((s.data.dropWhile Char.isWhitespace).reverse.dropWhile
      Char.isWhitespace).reverse⟩

/-- Model of Python `str.lower()` (semantically `String.toLower`,
written over the character list so that closed instances evaluate
inside the kernel). -/
def strLower (s : String) : String := ⟨s.data.map Char.toLower⟩

/-- Value of a list of decimal digit characters. -/
def digitsVal (cs : List Char) : Nat :=
  cs.foldl (fun n c => 10 * n + (c.toNat - 48)) 0

/-- Model of Python `int(s)` on a string: optional surrounding
whitespace, an optional sign, then one or more decimal digits;
any other string raises `ValueError`, modelled as `none`. -/
def pyInt (s : String) : Option Int :=
  let cs := (pyStrip s).data
  let (sign, digits) :=
    match cs with
    | '-' :: rest => ((-1 : Int), rest)
    | '+' :: rest => ((1 : Int), rest)
    | _ => ((1 : Int), cs)
  if digits ≠ [] ∧ digits.all Char.isDigit then
    some (sign * (digitsVal digits : Int))
  else
    none

/-- Model of Python `float(s)` on a string: optional surrounding
whitespace, an optional sign, then a plain decimal literal (digits with
at most one dot, at least one digit in total); any other string raises
`ValueError`, modelled as `none`. -/
def pyFloat (s : String) : Option ℚ :=
  let cs := (pyStrip s).data
  let (sign, body) :=
    match cs with
    | '-' :: rest => ((-1 : ℚ), rest)
    | '+' :: rest => ((1 : ℚ), rest)
    | _ => ((1 : ℚ), cs)
  match body.splitOn '.' with
  | [whole] =>
      if whole ≠ [] ∧ whole.all Char.isDigit then
        some (sign * (digitsVal whole : ℚ))
      else none
  | [whole, frac] =>
      if (whole ++ frac) ≠ [] ∧ (whole ++ frac).all Char.isDigit then
        some (sign * ((digitsVal whole : ℚ) +
          (digitsVal frac : ℚ) / (10 : ℚ) ^ frac.length))
      else none
  | _ => none

/-- Does `needle` start `haystack`? (helper for substring search). -/
def leadsList : List Char → List Char → Bool
  | [], _ => true
  | _ :: _, [] => false
  | n :: ns, h :: hs => (n = h) && leadsList ns hs

/-- Does `needle` occur as a contiguous run inside `haystack`? -/
def occursIn (needle : List Char) : List Char → Bool
  | [] => needle.isEmpty
  | h :: t => leadsList needle (h :: t) || occursIn needle t

/-- Model of the Django `icontains` lookup: case-insensitive substring
match. -/
def icontains (haystack needle : String) : Bool :=
  occursIn (strLower needle).data (strLower haystack).data

/-! ### Data model (`core/models.py`) -/

/-- Status choices of `LibrarySubmission` (`models.py` lines 50–58). -/
inductive SubmissionStatus
  | pending
  | approved
  | rejected
deriving DecidableEq, Repr

/-- Row of `LibrarySubmission` (`models.py` lines 49–94).  Its only
user foreign keys are `submitted_by` and `reviewed_by`; the model has
no `user` and no `category` attribute.  Timestamps are abstract `Nat`
ticks. -/
structure LibrarySubmission where
  id : Nat
  title : String
  description : String
  url : String
  submitted_by : Option Nat
  status : SubmissionStatus
  rejection_reason : String
  reviewed_by : Option Nat
  reviewed_at : Option Nat
  created_at : Nat
deriving DecidableEq, Repr

/-- Row of `LibraryCategory` (`models.py` lines 38–46). -/
structure LibraryCategory where
  id : Nat
  name : String
  slug : String
deriving DecidableEq, Repr

/-- Row of `LibraryItem` (`models.py` lines 97–132).  `source_submission`
is a nullable one-to-one reference to the producing submission.  The
model has no `item_type` field. -/
structure LibraryItem where
  id : Nat
  category : Option Nat
  title : String
  description : String
  url : String
  is_published : Bool
  submitted_by : Option Nat
  source_submission : Option Nat
  created_at : Nat
deriving DecidableEq, Repr

/-- Row of `DictionaryEntry` (`models.py` lines 9–19).  The source
column `lemma` is a Lean keyword, so it is embedded as `lemmaText`. -/
structure DictionaryEntry where
  id : Nat
  lemmaText : String
  gloss_ll : String
  gloss_en : String
deriving DecidableEq, Repr

/-- The `meta` payload written by the dictionary search log
(`views_dictionary.py` lines 121–126); the request-plumbing keys
`path` and `ip` carry no view logic and are not modelled. -/
structure QueryMeta where
  fuzzy_enabled : Bool
  similarity_threshold : Option ℚ
deriving DecidableEq, Repr

/-- Row of `SearchQueryLog` (`models.py` lines 202–220). -/
structure SearchQueryLog where
  source : String
  query : String
  has_results : Bool
  results_count : Nat
  user : Option Nat
  meta : QueryMeta
deriving DecidableEq, Repr

/-- The relational store, with auto-increment counters for the primary
keys the embedded views allocate. -/
structure DB where
  submissions : List LibrarySubmission
  items : List LibraryItem
  categories : List LibraryCategory
  entries : List DictionaryEntry
  query_logs : List SearchQueryLog
  next_submission_id : Nat
  next_item_id : Nat
  next_entry_id : Nat
deriving DecidableEq, Repr

/-- HTTP status codes used by the embedded views. -/
inductive HttpStatus
  | ok200
  | created201
  | badRequest400
  | unauthorized401
  | forbidden403
  | notFound404
  | serverError500
deriving DecidableEq, Repr

/-! ### Moderation workflow (`core/views_library_admin.py`) -/

/-- Result of a moderation POST: the database afterwards, the HTTP
status, the `detail` message of the response body, and the `item_id`
field when present. -/
structure ModResult where
  db : DB
  status : HttpStatus
  detail : String
  item_id : Option Nat
deriving DecidableEq, Repr

/-- Embeds `ApproveSubmission.post` (`views_library_admin.py` lines
13–47).  After the existence and pending checks the source evaluates
`LibraryItem.objects.create(..., category=submission.category, ...,
submitted_by=submission.user, ...)`; `LibrarySubmission` defines
neither a `category` nor a `user` attribute (`models.py` lines 49–94),
so the view raises `AttributeError` while building the keyword
arguments, before any row is created or mutated, and the exception
handler returns HTTP 500 with the database unchanged. -/
def ApproveSubmission_post (db : DB) (pk : Nat) (_reviewer : Nat)
    (_now : Nat) : ModResult :=
  match db.submissions.find? (fun s => s.id == pk) with
  | none => ⟨db, .notFound404, "Submission not found.", none⟩
  | some s =>
      if s.status ≠ SubmissionStatus.pending then
        ⟨db, .badRequest400, "Submission already reviewed.", none⟩
      else
        ⟨db, .serverError500,
          "An unexpected error occurred. Please try again later.", none⟩

/-- Embeds `RejectSubmission.post` (`views_library_admin.py` lines
53–79): 404 when the submission is missing, 400 when it is not
pending; otherwise it strips the optional `reason`, marks the
submission rejected with reviewer and time, and returns 200. -/
def RejectSubmission_post (db : DB) (pk : Nat) (reviewer : Nat)
    (now : Nat) (reasonParam : Option String) : ModResult :=
  match db.submissions.find? (fun s => s.id == pk) with
  | none => ⟨db, .notFound404, "Submission not found.", none⟩
  | some s =>
      if s.status ≠ SubmissionStatus.pending then
        ⟨db, .badRequest400, "Submission already reviewed.", none⟩
      else
        let reason := pyStrip (reasonParam.getD "")
        let s' : LibrarySubmission :=
          { s with
            status := SubmissionStatus.rejected
            reviewed_by := some reviewer
            reviewed_at := some now
            rejection_reason := reason }
        ⟨{ db with
            submissions := db.submissions.map
              (fun t => if t.id == pk then s' else t) },
          .ok200, "Submission rejected.", none⟩

/-! ### Submission intake (`core/views_library.py`, `LibrarySubmit`) -/

/-- Result of the submission intake POST. -/
structure SubmitResult where
  db : DB
  status : HttpStatus
  id : Option Nat
deriving DecidableEq, Repr

/-- Embeds `LibrarySubmit.post` (`views_library.py` lines 70–93): the
title is stripped and must be non-empty, the authenticated submitter is
recorded, and the submission is created in `pending` status with the
model defaults (`rejection_reason = ""`, null review fields). -/
def LibrarySubmit_post (db : DB) (user : Nat)
    (title description url : Option String) (now : Nat) : SubmitResult :=
  let t := pyStrip (title.getD "")
  if t = "" then
    ⟨db, .badRequest400, none⟩
  else
    let s : LibrarySubmission :=
      { id := db.next_submission_id
        title := t
        description := description.getD ""
        url := url.getD ""
        submitted_by := some user
        status := SubmissionStatus.pending
        rejection_reason := ""
        reviewed_by := none
        reviewed_at := none
        created_at := now }
    ⟨{ db with
        submissions := db.submissions ++ [s]
        next_submission_id := db.next_submission_id + 1 },
      .created201, some s.id⟩

/-! ### Permissions (`core/permissions.py`) -/

/-- The principal attached to a request, as the permission classes see
it.  `none` models a request with no credentials (DRF's
`AnonymousUser`). -/
structure Principal where
  is_authenticated : Bool
  is_superuser : Bool
  is_staff : Bool
  groups : List String
deriving DecidableEq, Repr

/-- Group names of `permissions.py` lines 6–7. -/
def MANAGER_GROUP : String := "manager"

/-- Group names of `permissions.py` lines 6–7. -/
def EDITOR_GROUP : String := "editor"

/-- Embeds `_in_group` (`permissions.py` lines 10–16). -/
def in_group (user : Option Principal) (group_name : String) : Bool :=
  match user with
  | none => false
  | some u => u.is_authenticated && u.groups.contains group_name

/-- Embeds `IsManagerOrAdmin.has_permission` (`permissions.py` lines
40–48): superuser, staff, or member of the `manager` group. -/
def IsManagerOrAdmin_has_permission (user : Option Principal) : Bool :=
  match user with
  | none => false
  | some u =>
      if !u.is_authenticated then false
      else if u.is_superuser || u.is_staff then true
      else in_group (some u) MANAGER_GROUP

/-- Embeds `IsModeratorOrAdmin.has_permission` (`permissions.py` lines
61–69): superuser, staff, or member of the `manager` or `editor`
group.  Its docstring says it is for moderation endpoints, but the
routed moderation views do not use it. -/
def IsModeratorOrAdmin_has_permission (user : Option Principal) : Bool :=
  match user with
  | none => false
  | some u =>
      if !u.is_authenticated then false
      else if u.is_superuser || u.is_staff then true
      else in_group (some u) MANAGER_GROUP || in_group (some u) EDITOR_GROUP

/-- The DRF gate in front of `ApproveSubmission` and `RejectSubmission`
(`views_library_admin.py` lines 11 and 51, `permission_classes =
[IsManagerOrAdmin]`): an unauthenticated request is refused with 401,
an authenticated request failing the permission check with 403;
`none` means the request reaches the view body. -/
def moderationGate (user : Option Principal) : Option HttpStatus :=
  match user with
  | none => some .unauthorized401
  | some u =>
      if !u.is_authenticated then some .unauthorized401
      else if !IsManagerOrAdmin_has_permission (some u) then
        some .forbidden403
      else none

/-! ### Library search (`core/views_library.py`, `LibrarySearch`) -/

/-- Query parameters of `GET /library/search`. -/
structure LibSearchRequest where
  q : Option String
  category : Option String
  limit : Option String
  offset : Option String
deriving DecidableEq, Repr

/-- A row of the library search response (`views_library.py` lines
50–58).  `item_type` is read with `getattr(i, "item_type", None)` and
`LibraryItem` has no such field, so it is always `none`. -/
structure LibSearchRow where
  id : Nat
  title : String
  item_type : Option String
  category : Option String
deriving DecidableEq, Repr

/-- Result of the library search GET. -/
structure LibSearchResult where
  db : DB
  status : HttpStatus
  count : Nat
  results : List LibSearchRow
deriving DecidableEq, Repr

/-- The `limit` parameter before clamping (`views_library.py` lines
33–36 and identically `views_dictionary.py` lines 74–77):
`int(request.GET.get("limit", 20))` with `ValueError` falling back to
20. -/
def parsedLimit (raw : Option String) : Int :=
  match raw with
  | none => 20
  | some s => (pyInt s).getD 20

/-- The `offset` parameter before clamping (`views_library.py` lines
37–40, `views_dictionary.py` lines 78–81). -/
def parsedOffset (raw : Option String) : Int :=
  match raw with
  | none => 0
  | some s => (pyInt s).getD 0

/-- `limit = max(1, min(limit, 100))` (`views_library.py` line 42,
`views_dictionary.py` line 83). -/
def clampedLimit (raw : Option String) : Int :=
  max 1 (min (parsedLimit raw) 100)

/-- `offset = max(0, offset)` (`views_library.py` line 43,
`views_dictionary.py` line 84). -/
def clampedOffset (raw : Option String) : Int :=
  max 0 (parsedOffset raw)

/-- The filtered queryset of `LibrarySearch.get` (`views_library.py`
lines 21–30): published items, optionally restricted by a
case-insensitive substring match on title or description and by
category slug. -/
def librarySearchFiltered (db : DB) (q : String) (category : Option String) :
    List LibraryItem :=
  let qs := db.items.filter (fun i => i.is_published)
  let qs :=
    if q ≠ "" then
      qs.filter (fun i => icontains i.title q || icontains i.description q)
    else qs
  match category with
  | none => qs
  | some c =>
      if c ≠ "" then
        qs.filter (fun i =>
          match i.category with
          | none => false
          | some cid =>
              (db.categories.find? (fun cat => cat.id == cid)).any
                (fun cat => cat.slug == c))
      else qs

/-- Insertion of one element into a sorted list (helper for the
`order_by` clauses). -/
def insertLe {α : Type} (le : α → α → Bool) (a : α) : List α → List α
  | [] => [a]
  | b :: l => if le a b then a :: b :: l else b :: insertLe le a l

/-- Insertion sort by a boolean comparison (helper for the `order_by`
clauses; the claims do not depend on tie order). -/
def sortLe {α : Type} (le : α → α → Bool) : List α → List α
  | [] => []
  | a :: l => insertLe le a (sortLe le l)

/-- Embeds `LibrarySearch.get` (`views_library.py` lines 16–60): filter,
clamp the paging parameters, count the full filtered set, slice by
recency order, and respond 200.  The view performs no write: in
particular it creates no `SearchQueryLog` row, and the database is
returned unchanged. -/
def LibrarySearch_get (db : DB) (req : LibSearchRequest) : LibSearchResult :=
  let q := pyStrip (req.q.getD "")
  let qs := librarySearchFiltered db q req.category
  let limit := clampedLimit req.limit
  let offset := clampedOffset req.offset
  let ordered := sortLe (fun a b => b.created_at ≤ a.created_at) qs
  let items := (ordered.drop offset.toNat).take limit.toNat
  ⟨db, .ok200, qs.length,
    items.map (fun i =>
      { id := i.id
        title := i.title
        item_type := none
        category :=
          match i.category with
          | none => none
          | some cid =>
              (db.categories.find? (fun cat => cat.id == cid)).map
                (fun cat => cat.name) })⟩

/-! ### Public dictionary search (`core/views_dictionary.py`) -/

/-- Query parameters of `GET /public/v1/dictionary/search`, plus the
optional authenticated user recorded in the query log. -/
structure DictSearchRequest where
  q : Option String
  fuzzy : Option String
  similarity : Option String
  limit : Option String
  offset : Option String
  user : Option Nat
deriving DecidableEq, Repr

/-- A dictionary entry annotated with the three trigram similarity
scores (`views_dictionary.py` lines 42–47). -/
structure AnnotatedEntry where
  entry : DictionaryEntry
  lemma_sim : ℚ
  gloss_ll_sim : ℚ
  gloss_en_sim : ℚ
deriving DecidableEq, Repr

/-- A row of the dictionary search response (`views_dictionary.py`
lines 95–108); `similarity` is included only on fuzzy searches with a
non-empty query. -/
structure DictSearchRow where
  id : Nat
  lemmaText : String
  gloss_ll : String
  gloss_en : String
  similarity : Option (ℚ × ℚ × ℚ)
deriving DecidableEq, Repr

/-- Outcome of the dictionary search GET: a 200 response with count,
rows and `search_type`, or an unhandled-exception 500 with the
database unchanged. -/
inductive DictOutcome
  | success (db : DB) (count : Nat) (results : List DictSearchRow)
      (search_type : String)
  | failure (db : DB) (status : HttpStatus)
deriving DecidableEq, Repr

/-- The database after a dictionary search outcome. -/
def DictOutcome.dbOut : DictOutcome → DB
  | .success db _ _ _ => db
  | .failure db _ => db

/-- The count field of a successful outcome (0 on failure, which has no
body). -/
def DictOutcome.countOut : DictOutcome → Nat
  | .success _ c _ _ => c
  | .failure _ _ => 0

/-- `similarity_threshold` as computed by `views_dictionary.py` lines
33–34: `float(request.GET.get("similarity", "0.3"))` — unguarded, so a
non-numeric parameter raises `ValueError` (`none` here) — then clamped
to `[0.1, 1.0]`. -/
def similarityThreshold (raw : Option String) : Option ℚ :=
  (pyFloat (raw.getD "0.3")).map (fun v => max (1/10 : ℚ) (min v 1))

/-- Python `round(x, 3)` applied to the similarity scores for display
(`views_dictionary.py` lines 105–107), modelled on rationals as
round-half-up to 3 decimals (the float tie-breaking rule is a display
detail no claim references). -/
def round3 (x : ℚ) : ℚ := (⌊1000 * x + 1/2⌋ : ℚ) / 1000

/-- Descending lexicographic order on `(-lemma_sim, -gloss_ll_sim,
-gloss_en_sim)` — the fuzzy `order_by` of `views_dictionary.py` line
59. -/
def fuzzyLe (a b : AnnotatedEntry) : Bool :=
  if a.lemma_sim ≠ b.lemma_sim then decide (b.lemma_sim < a.lemma_sim)
  else if a.gloss_ll_sim ≠ b.gloss_ll_sim then
    decide (b.gloss_ll_sim < a.gloss_ll_sim)
  else decide (b.gloss_en_sim ≤ a.gloss_en_sim)

/-- Alphabetical order on the lemma column — the `order_by('lemma')` of
`views_dictionary.py` lines 67 and 71. -/
def lemmaLe (a b : AnnotatedEntry) : Bool :=
  !decide (b.entry.lemmaText < a.entry.lemmaText)

/-- The filtered and ordered queryset of the dictionary search, before
pagination (`views_dictionary.py` lines 36–71), annotated with
similarity scores.  `sim` is the external `TrigramSimilarity` of the
database; in the non-fuzzy branches the source querysets carry no
annotations and the scores are the `getattr(..., 0.0)` defaults. -/
def dictQueryset (sim : String → String → ℚ) (fuzzy_enabled : Bool)
    (db : DB) (q : String) (use_fuzzy : Bool)
    (similarity_threshold : ℚ) : List AnnotatedEntry :=
  if q ≠ "" then
    if fuzzy_enabled && use_fuzzy then
      sortLe fuzzyLe
        ((db.entries.map (fun e =>
          { entry := e
            lemma_sim := sim e.lemmaText q
            gloss_ll_sim := sim e.gloss_ll q
            gloss_en_sim := sim e.gloss_en q })).filter
          (fun a =>
            decide (similarity_threshold < a.lemma_sim) ||
            decide (similarity_threshold < a.gloss_ll_sim) ||
            decide (similarity_threshold < a.gloss_en_sim)))
    else
      sortLe lemmaLe
        ((db.entries.filter (fun e =>
          icontains e.lemmaText q || icontains e.gloss_ll q ||
          icontains e.gloss_en q)).map (fun e =>
          { entry := e, lemma_sim := 0, gloss_ll_sim := 0,
            gloss_en_sim := 0 }))
  else
    sortLe lemmaLe
      (db.entries.map (fun e =>
        { entry := e, lemma_sim := 0, gloss_ll_sim := 0,
          gloss_en_sim := 0 }))

/-- The stripped query of a dictionary search request
(`views_dictionary.py` line 28). -/
def dictQ (req : DictSearchRequest) : String := pyStrip (req.q.getD "")

/-- The `use_fuzzy` flag of a dictionary search request
(`views_dictionary.py` line 29). -/
def dictUseFuzzy (req : DictSearchRequest) : Bool :=
  strLower (req.fuzzy.getD "true") == "true"

/-- The filtered, ordered queryset of a dictionary search request at a
given threshold (`views_dictionary.py` lines 36–71); paging does not
enter it. -/
def dictQs (sim : String → String → ℚ) (fuzzy_enabled : Bool) (db : DB)
    (req : DictSearchRequest) (t : ℚ) : List AnnotatedEntry :=
  dictQueryset sim fuzzy_enabled db (dictQ req) (dictUseFuzzy req) t

/-- The response rows of a dictionary search at a given threshold:
the queryset sliced by the clamped paging window and serialised
(`views_dictionary.py` lines 90–110). -/
def dictResults (sim : String → String → ℚ) (fuzzy_enabled : Bool)
    (db : DB) (req : DictSearchRequest) (t : ℚ) : List DictSearchRow :=
  (((dictQs sim fuzzy_enabled db req t).drop
      (clampedOffset req.offset).toNat).take
    (clampedLimit req.limit).toNat).map (fun a =>
    { id := a.entry.id
      lemmaText := a.entry.lemmaText
      gloss_ll := a.entry.gloss_ll
      gloss_en := a.entry.gloss_en
      similarity :=
        if fuzzy_enabled && dictUseFuzzy req && dictQ req ≠ "" then
          some (round3 a.lemma_sim, round3 a.gloss_ll_sim,
            round3 a.gloss_en_sim)
        else none })

/-- The `SearchQueryLog` row appended by a dictionary search
(`views_dictionary.py` lines 112–127): `has_results` is the
non-emptiness of the returned page, `results_count` its size. -/
def dictLogRow (sim : String → String → ℚ) (fuzzy_enabled : Bool)
    (db : DB) (req : DictSearchRequest) (t : ℚ) : SearchQueryLog :=
  { source := "dictionary"
    query := dictQ req
    has_results := !(dictResults sim fuzzy_enabled db req t).isEmpty
    results_count := (dictResults sim fuzzy_enabled db req t).length
    user := req.user
    meta :=
      { fuzzy_enabled := fuzzy_enabled && dictUseFuzzy req
        similarity_threshold :=
          if fuzzy_enabled && dictUseFuzzy req then some t else none } }

/-- Embeds `PublicDictionarySearch.get` (`views_dictionary.py` lines
27–136).  `fuzzy_enabled` is the `FUZZY_SEARCH_ENABLED` setting
(`settings.py` line 325, environment-controlled, default true).  The
unguarded `float(...)` of the `similarity` parameter runs before
anything else, so a non-numeric value aborts the request with 500
before any row is read or logged; otherwise the view filters, counts
the full filtered set before slicing, slices, appends exactly one
`SearchQueryLog` row, and responds 200. -/
def PublicDictionarySearch_get (sim : String → String → ℚ)
    (fuzzy_enabled : Bool) (db : DB) (req : DictSearchRequest) :
    DictOutcome :=
  match similarityThreshold req.similarity with
  | none => .failure db .serverError500
  | some t =>
      .success
        { db with query_logs :=
            db.query_logs ++ [dictLogRow sim fuzzy_enabled db req t] }
        (dictQs sim fuzzy_enabled db req t).length
        (dictResults sim fuzzy_enabled db req t)
        (if fuzzy_enabled && dictUseFuzzy req && dictQ req ≠ "" then
          "fuzzy"
        else "exact")

/-! ### Bulk importers (`core/views_import.py`) -/

/-- One row of the dictionary CSV (via `csv.DictReader`) or one element
of the JSON `entries` list: `row.get(...)` yields `none` for a missing
key or column. -/
structure ImportRow where
  lemmaText : Option String
  gloss_ll : Option String
  gloss_en : Option String
deriving DecidableEq, Repr

/-- The counters and log of an `ImportJob` row (`models.py` lines
177–195) as accumulated during an import. -/
structure ImportJob where
  total_rows : Nat
  success_rows : Nat
  failed_rows : Nat
  log : List String
deriving DecidableEq, Repr

/-- The initial job of `BaseImportView.create_job`
(`views_import.py` lines 20–29) together with the opening log line. -/
def initialJob (firstLine : String) : ImportJob :=
  { total_rows := 0, success_rows := 0, failed_rows := 0,
    log := [firstLine] }

/-- The per-row body shared verbatim by `DictionaryImportCSVView.post`
(`views_import.py` lines 74–96) and `DictionaryImportJSONView.post`
(lines 142–163): count the row, fail it when the stripped lemma is
empty, otherwise upsert by lemma — a falsy gloss in the row keeps the
existing value. -/
def dictionaryImportRow (rowWord : String) (acc : DB × ImportJob × Nat)
    (row : ImportRow) : DB × ImportJob × Nat :=
  let (db, job, idx) := acc
  let job := { job with total_rows := job.total_rows + 1 }
  let lemmaVal := pyStrip (row.lemmaText.getD "")
  if lemmaVal = "" then
    (db,
      { job with
        failed_rows := job.failed_rows + 1
        log := job.log ++
          [rowWord ++ " " ++ toString idx ++ ": missing lemma."] },
      idx + 1)
  else
    match db.entries.find? (fun e => e.lemmaText == lemmaVal) with
    | some e =>
        let e' : DictionaryEntry :=
          { e with
            gloss_ll :=
              if (row.gloss_ll.getD "") ≠ "" then row.gloss_ll.getD ""
              else e.gloss_ll
            gloss_en :=
              if (row.gloss_en.getD "") ≠ "" then row.gloss_en.getD ""
              else e.gloss_en }
        ({ db with
            entries := db.entries.map
              (fun t => if t.id == e.id then e' else t) },
          { job with success_rows := job.success_rows + 1 }, idx + 1)
    | none =>
        ({ db with
            entries := db.entries ++
              [{ id := db.next_entry_id
                 lemmaText := lemmaVal
                 gloss_ll := row.gloss_ll.getD ""
                 gloss_en := row.gloss_en.getD "" }]
            next_entry_id := db.next_entry_id + 1 },
          { job with success_rows := job.success_rows + 1 }, idx + 1)

/-- Final response of an import view: the database, HTTP status and the
aggregate counters of the response body. -/
structure ImportResult where
  db : DB
  status : HttpStatus
  job : ImportJob
deriving DecidableEq, Repr

/-- Embeds `DictionaryImportCSVView.post` (`views_import.py` lines
53–109) on an already-decoded CSV: every row is processed
independently and the view answers 200 with the aggregate counters. -/
def DictionaryImportCSVView_post (db : DB) (rows : List ImportRow) :
    ImportResult :=
  let r := rows.foldl (dictionaryImportRow "Row")
    (db, initialJob "Starting dictionary CSV import.", 1)
  ⟨r.1, .ok200, r.2.1⟩

/-- Embeds `DictionaryImportJSONView.post` (`views_import.py` lines
123–176) on a payload whose `entries` key is a list: identical row
logic with `Item` log lines. -/
def DictionaryImportJSONView_post (db : DB) (rows : List ImportRow) :
    ImportResult :=
  let r := rows.foldl (dictionaryImportRow "Item")
    (db, initialJob "Starting dictionary JSON import.", 1)
  ⟨r.1, .ok200, r.2.1⟩

/-- One element of the library JSON `items` list
(`views_import.py` lines 216–245).  `is_published` is `some b` when the
key is present. -/
structure LibImportItem where
  title : Option String
  description : Option String
  url : Option String
  item_type : Option String
  is_published : Option Bool
deriving DecidableEq, Repr

/-- Outcome of the library JSON import: a 200 response with counters,
or an unhandled exception turned into a 500 with the rows processed so
far already persisted (there is no transaction around the loop; the
job row itself is only finalized on success). -/
inductive LibImportOutcome
  | success (db : DB) (job : ImportJob)
  | failure (db : DB)
deriving DecidableEq, Repr

/-- The loop of `LibraryImportJSONView.post` (`views_import.py` lines
216–245).  `LibraryItem` has no `item_type` field (`models.py` lines
97–132), so: on the create path, `get_or_create` passes
`item_type=...` to the model constructor, which raises `TypeError`;
on the update path, `item.get("item_type") or library_item.item_type`
raises `AttributeError` unless the payload carries a non-empty
`item_type`.  Either exception aborts the whole batch with a 500. -/
def libraryImportLoop (now : Nat) :
    DB → ImportJob → Nat → List LibImportItem → LibImportOutcome
  | db, job, _, [] => .success db job
  | db, job, idx, item :: rest =>
      let job := { job with total_rows := job.total_rows + 1 }
      let title := pyStrip (item.title.getD "")
      if title = "" then
        libraryImportLoop now db
          { job with
            failed_rows := job.failed_rows + 1
            log := job.log ++
              ["Item " ++ toString idx ++ ": missing title."] }
          (idx + 1) rest
      else
        match db.items.find? (fun i => i.title == title) with
        | none =>
            -- `LibraryItem.objects.create(title=..., item_type=..., ...)`
            -- raises `TypeError: item_type is an invalid keyword argument`.
            .failure db
        | some i =>
            if (item.item_type.getD "") ≠ "" then
              let i' : LibraryItem :=
                { i with
                  description :=
                    if (item.description.getD "") ≠ "" then
                      item.description.getD ""
                    else i.description
                  url :=
                    if (item.url.getD "") ≠ "" then item.url.getD ""
                    else i.url
                  is_published :=
                    match item.is_published with
                    | some b => b
                    | none => i.is_published }
              libraryImportLoop now
                { db with
                    items := db.items.map
                      (fun t => if t.id == i.id then i' else t) }
                { job with
                  success_rows := job.success_rows + 1
                  log := job.log ++
                    ["Item " ++ toString idx ++ ": updated " ++ title] }
                (idx + 1) rest
            else
              -- reading `library_item.item_type` raises `AttributeError`;
              -- the in-memory description/url assignments are never saved.
              .failure db

/-- Embeds `LibraryImportJSONView.post` (`views_import.py` lines
197–258) on a payload whose `items` key is a list. -/
def LibraryImportJSONView_post (db : DB) (items : List LibImportItem)
    (now : Nat) : LibImportOutcome :=
  libraryImportLoop now db (initialJob "Starting library JSON import.")
    1 items

/-! ### Concrete fixtures for the counterexamples and witnesses -/

/-- A pending submission (the scenario of the repository's own
`test_approve_success`). -/
def sub1 : LibrarySubmission :=
  { id := 1, title := "Test Submission", description := "Test description"
    url := "http://example.com/test", submitted_by := some 5
    status := SubmissionStatus.pending, rejection_reason := ""
    reviewed_by := none, reviewed_at := none, created_at := 0 }

/-- An already-approved submission. -/
def sub2 : LibrarySubmission :=
  { id := 2, title := "Old Submission", description := ""
    url := "", submitted_by := some 5
    status := SubmissionStatus.approved, rejection_reason := ""
    reviewed_by := some 7, reviewed_at := some 50, created_at := 0 }

/-- A store holding one pending submission and nothing else. -/
def db0 : DB :=
  { submissions := [sub1], items := [], categories := [], entries := []
    query_logs := [], next_submission_id := 2, next_item_id := 1
    next_entry_id := 1 }

/-- A store holding one pending and one approved submission. -/
def db1 : DB :=
  { db0 with submissions := [sub1, sub2], next_submission_id := 3 }

/-! ### Helper lemmas -/

/-- The approve view leaves the database untouched in every branch:
missing submission (404), non-pending submission (400), and the
`AttributeError` path (500) that fires before any write. -/
theorem approve_db_unchanged (db : DB) (pk reviewer now : Nat) :
    (ApproveSubmission_post db pk reviewer now).db = db := by
  unfold ApproveSubmission_post
  split
  · rfl
  · split <;> rfl

/-- The reject view never touches the items table. -/
theorem reject_items_unchanged (db : DB) (pk reviewer now : Nat)
    (reasonParam : Option String) :
    (RejectSubmission_post db pk reviewer now reasonParam).db.items =
      db.items := by
  unfold RejectSubmission_post
  split
  · rfl
  · split <;> rfl

/-! ### Claims -/

/-- C1.  The claim states that approving a pending submission creates a
published CatalogItem copying the submission and returns both
identifiers.  In the code, `ApproveSubmission.post` evaluates
`submission.category` and `submission.user`, attributes
`LibrarySubmission` does not define, so every approve of a pending
submission raises `AttributeError` and answers HTTP 500 with no
CatalogItem created, no field updated and no identifiers returned
(contradicting the repository's own `test_approve_success`). -/
theorem C1_approve_raises_on_pending :
    (ApproveSubmission_post db0 1 7 100).status =
      HttpStatus.serverError500 ∧
    (ApproveSubmission_post db0 1 7 100).db = db0 ∧
    (ApproveSubmission_post db0 1 7 100).item_id = none ∧
    (ApproveSubmission_post db0 1 7 100).db.items.filter
      (fun i => i.source_submission == some 1) = [] :=
  ⟨rfl, rfl, rfl, rfl⟩

/-- C2.  The claim states that on a pending submission, approve
followed by approve-or-reject yields exactly one success and one
conflict, leaving exactly one CatalogItem sourced from the submission.
In the code the first approve already fails with HTTP 500 (the
`AttributeError` of `ApproveSubmission.post`) and leaves the
submission pending, so a repeat approve fails with 500 again — zero
successes, zero conflicts, zero CatalogItems — and a subsequent reject
on the same id still succeeds because no transition ever happened. -/
theorem C2_double_approve_never_succeeds :
    (ApproveSubmission_post db0 1 7 100).status ≠ HttpStatus.ok200 ∧
    (ApproveSubmission_post
        (ApproveSubmission_post db0 1 7 100).db 1 8 101).status =
      HttpStatus.serverError500 ∧
    ((ApproveSubmission_post
        (ApproveSubmission_post db0 1 7 100).db 1 8 101).db.items.filter
      (fun i => i.source_submission == some 1)).length = 0 ∧
    (RejectSubmission_post
        (ApproveSubmission_post db0 1 7 100).db 1 8 101 none).status =
      HttpStatus.ok200 :=
  ⟨by decide, rfl, rfl, rfl⟩

/-- C3 counterexample.  The claim says the conflict failure carries a
message identifying the submission's current status; approving the
already-approved `sub2` answers 400 with the fixed message
`"Submission already reviewed."`, which does not mention the status
`approved` (not even case-insensitively). -/
theorem C3_conflict_message_lacks_status :
    (ApproveSubmission_post db1 2 7 100).status =
      HttpStatus.badRequest400 ∧
    (ApproveSubmission_post db1 2 7 100).detail =
      "Submission already reviewed." ∧
    icontains (ApproveSubmission_post db1 2 7 100).detail "approved" =
      false :=
  ⟨rfl, rfl, by decide⟩

/-- C3 (amended).  Approve and reject answer 404 when no submission
with the id exists and 400 with the fixed message `"Submission already
reviewed."` when the submission is not pending; in every such failure
the database — hence the submission and the items table — is
unchanged. -/
theorem C3_amended_failure_modes (db : DB) (pk reviewer now : Nat)
    (reasonParam : Option String) :
    (db.submissions.find? (fun s => s.id == pk) = none →
      ApproveSubmission_post db pk reviewer now =
        ⟨db, HttpStatus.notFound404, "Submission not found.", none⟩ ∧
      RejectSubmission_post db pk reviewer now reasonParam =
        ⟨db, HttpStatus.notFound404, "Submission not found.", none⟩) ∧
    (∀ s, db.submissions.find? (fun t => t.id == pk) = some s →
      s.status ≠ SubmissionStatus.pending →
      ApproveSubmission_post db pk reviewer now =
        ⟨db, HttpStatus.badRequest400, "Submission already reviewed.",
          none⟩ ∧
      RejectSubmission_post db pk reviewer now reasonParam =
        ⟨db, HttpStatus.badRequest400, "Submission already reviewed.",
          none⟩) := by
  constructor
  · intro hnone
    unfold ApproveSubmission_post RejectSubmission_post
    rw [hnone]
    exact ⟨rfl, rfl⟩
  · intro s hfind hstat
    unfold ApproveSubmission_post RejectSubmission_post
    rw [hfind]
    simp [hstat]

/-- C3 witness: the amended failure modes at the concrete store `db1`
(approving the already-approved submission 2, rejecting the missing
submission 9). -/
theorem C3_amended_failure_modes_witness :
    (db1.submissions.find? (fun t => t.id == 2) = some sub2 ∧
      sub2.status ≠ SubmissionStatus.pending ∧
      ApproveSubmission_post db1 2 7 100 =
        ⟨db1, HttpStatus.badRequest400, "Submission already reviewed.",
          none⟩) ∧
    (db1.submissions.find? (fun s => s.id == 9) = none ∧
      RejectSubmission_post db1 9 7 100 none =
        ⟨db1, HttpStatus.notFound404, "Submission not found.", none⟩) :=
  ⟨⟨by decide, by decide,
      ((C3_amended_failure_modes db1 2 7 100 none).2 sub2 (by decide)
        (by decide)).1⟩,
    ⟨by decide,
      ((C3_amended_failure_modes db1 9 7 100 none).1 (by decide)).2⟩⟩

/-- C4 counterexample.  The claim says reject stores the supplied
reason verbatim; rejecting the pending submission 1 with reason
`" spam "` stores the stripped string `"spam"`. -/
theorem C4_reject_strips_the_reason :
    ((RejectSubmission_post db0 1 7 100 (some " spam ")).db.submissions.find?
        (fun s => s.id == 1)).map (fun s => s.rejection_reason) =
      some "spam" ∧
    "spam" ≠ " spam " :=
  ⟨by decide, by decide⟩

/-- C4 (amended).  Rejecting a pending submission answers 200 and sets
`status = rejected`, `reviewed_by` to the reviewer, `reviewed_at` to
the current time and `rejection_reason` to the supplied reason
stripped of surrounding whitespace (`""` when none is supplied); and
reject never creates a CatalogItem, for any input. -/
theorem C4_amended_reject_effect :
    (∀ db pk reviewer now reasonParam s,
      db.submissions.find? (fun t => t.id == pk) = some s →
      s.status = SubmissionStatus.pending →
      (RejectSubmission_post db pk reviewer now reasonParam).status =
        HttpStatus.ok200 ∧
      ∀ t, t ∈ (RejectSubmission_post db pk reviewer now
          reasonParam).db.submissions →
        t.id = pk →
        t.status = SubmissionStatus.rejected ∧
        t.reviewed_by = some reviewer ∧
        t.reviewed_at = some now ∧
        t.rejection_reason = pyStrip (reasonParam.getD "")) ∧
    (∀ db pk reviewer now reasonParam,
      (RejectSubmission_post db pk reviewer now reasonParam).db.items =
        db.items) := by
  constructor
  · intro db pk reviewer now reasonParam s hfind hpending
    unfold RejectSubmission_post
    rw [hfind]
    simp only [hpending, ne_eq, not_true_eq_false, if_false]
    refine ⟨by simp, ?_⟩
    intro t ht hid
    simp only [List.mem_map] at ht
    obtain ⟨u, -, hu⟩ := ht
    by_cases hcase : u.id == pk
    · rw [if_pos hcase] at hu
      subst hu
      exact ⟨rfl, rfl, rfl, rfl⟩
    · rw [if_neg hcase] at hu
      subst hu
      exact absurd (beq_iff_eq.mpr hid) hcase
  · intro db pk reviewer now reasonParam
    exact reject_items_unchanged db pk reviewer now reasonParam

/-- C4 witness: the amended reject effect at the concrete store `db0`
with reason `" spam "`. -/
theorem C4_amended_reject_effect_witness :
    db0.submissions.find? (fun t => t.id == 1) = some sub1 ∧
    sub1.status = SubmissionStatus.pending ∧
    (RejectSubmission_post db0 1 7 100 (some " spam ")).status =
      HttpStatus.ok200 ∧
    (RejectSubmission_post db0 1 7 100 (some " spam ")).db.items =
      db0.items :=
  ⟨by decide, by decide,
    (C4_amended_reject_effect.1 db0 1 7 100 (some " spam ") sub1
      (by decide) (by decide)).1,
    C4_amended_reject_effect.2 db0 1 7 100 (some " spam ")⟩

/-- The review-field invariant of the data model (`spec.md` §3):
review fields are null exactly while pending, and a rejection reason
appears only on rejected submissions. -/
def submissionInvariant (s : LibrarySubmission) : Prop :=
  (s.status = SubmissionStatus.pending →
    s.reviewed_by = none ∧ s.reviewed_at = none) ∧
  (s.status ≠ SubmissionStatus.pending →
    s.reviewed_by ≠ none ∧ s.reviewed_at ≠ none) ∧
  (s.status ≠ SubmissionStatus.rejected → s.rejection_reason = "")

instance (s : LibrarySubmission) : Decidable (submissionInvariant s) := by
  unfold submissionInvariant
  infer_instance

/-- C5.  Submission intake, approve and reject each preserve the
invariant that `reviewed_by`/`reviewed_at` are null exactly while the
submission is pending and that `rejection_reason` is empty unless the
submission is rejected. -/
theorem C5_operations_preserve_invariant (db : DB)
    (h : ∀ s ∈ db.submissions, submissionInvariant s) :
    (∀ user title description url now s,
      s ∈ (LibrarySubmit_post db user title description url
          now).db.submissions →
      submissionInvariant s) ∧
    (∀ pk reviewer now s,
      s ∈ (ApproveSubmission_post db pk reviewer now).db.submissions →
      submissionInvariant s) ∧
    (∀ pk reviewer now reasonParam s,
      s ∈ (RejectSubmission_post db pk reviewer now
          reasonParam).db.submissions →
      submissionInvariant s) := by
  refine ⟨?_, ?_, ?_⟩
  · intro user title description url now s hs
    unfold LibrarySubmit_post at hs
    by_cases ht : pyStrip (title.getD "") = ""
    · rw [if_pos ht] at hs
      exact h s hs
    · rw [if_neg ht] at hs
      simp only [List.mem_append, List.mem_singleton] at hs
      rcases hs with hs | hs
      · exact h s hs
      · subst hs
        exact ⟨fun _ => ⟨rfl, rfl⟩, fun hc => absurd rfl hc,
          fun _ => rfl⟩
  · intro pk reviewer now s hs
    rw [approve_db_unchanged] at hs
    exact h s hs
  · intro pk reviewer now reasonParam s hs
    unfold RejectSubmission_post at hs
    split at hs
    · exact h s hs
    · split at hs
      · exact h s hs
      · simp only [List.mem_map] at hs
        obtain ⟨t, htmem, hts⟩ := hs
        by_cases hcase : t.id == pk
        · rw [if_pos hcase] at hts
          subst hts
          exact ⟨fun hc => by simp at hc, fun _ => by simp,
            fun hc => absurd rfl hc⟩
        · rw [if_neg hcase] at hts
          subst hts
          exact h t htmem

/-- C5 witness: the invariant-preservation theorem applied to the
concrete store `db0` and a concrete reject. -/
theorem C5_operations_preserve_invariant_witness :
    (∀ s ∈ db0.submissions, submissionInvariant s) ∧
    (∀ s, s ∈ (RejectSubmission_post db0 1 7 100
        (some "low quality")).db.submissions →
      submissionInvariant s) :=
  ⟨by decide,
    (C5_operations_preserve_invariant db0 (by decide)).2.2 1 7 100
      (some "low quality")⟩

/-! ### Claims on search, import and permissions -/

/-- A published library item (the data of the repository's own
`TestLibrarySearch`). -/
def item1 : LibraryItem :=
  { id := 1, category := none, title := "Lango Stories"
    description := "Collection of traditional stories"
    url := "http://example.com/stories", is_published := true
    submitted_by := none, source_submission := none, created_at := 10 }

/-- A dictionary entry (the data of the repository's own
`TestPublicDictionarySearch`). -/
def entryLeb : DictionaryEntry :=
  { id := 1, lemmaText := "leb", gloss_ll := "language"
    gloss_en := "language" }

/-- A store holding one published item and one dictionary entry, with
an empty query log. -/
def dbSearch : DB :=
  { submissions := [], items := [item1], categories := []
    entries := [entryLeb], query_logs := [], next_submission_id := 1
    next_item_id := 2, next_entry_id := 2 }

/-- A library search request that matches `item1`. -/
def reqLib : LibSearchRequest :=
  { q := some "Lango", category := none, limit := none, offset := none }

/-- A non-fuzzy dictionary search request that matches `entryLeb`. -/
def reqDict : DictSearchRequest :=
  { q := some "leb", fuzzy := some "false", similarity := none
    limit := none, offset := none, user := none }

/-- On a non-empty list, `isEmpty` is false exactly when the length is
positive. -/
theorem not_isEmpty_eq_pos_length {α : Type} (xs : List α) :
    (!xs.isEmpty) = decide (0 < xs.length) := by
  cases xs <;> simp

/-- C6 counterexample.  The claim says every search call — library
search included — appends exactly one QueryLog row; the library search
at `dbSearch` genuinely matches an item (count 1) yet appends no
`SearchQueryLog` row: `LibrarySearch.get` contains no logging call. -/
theorem C6_library_search_appends_no_log :
    (LibrarySearch_get dbSearch reqLib).count = 1 ∧
    (LibrarySearch_get dbSearch reqLib).db.query_logs.length ≠
      dbSearch.query_logs.length + 1 :=
  ⟨by decide, by decide⟩

/-- C6 (amended).  Every dictionary search call whose `similarity`
parameter parses (in particular every call leaving it absent) appends
exactly one QueryLog row, whose `has_results` equals
`results_count > 0`, in both search modes and independently of
pagination; library search calls append no QueryLog row and leave the
database untouched. -/
theorem C6_amended_dictionary_logs_once (sim : String → String → ℚ)
    (fuzzy_enabled : Bool) (db : DB) (req : DictSearchRequest)
    (hok : similarityThreshold req.similarity ≠ none) :
    (PublicDictionarySearch_get sim fuzzy_enabled db
        req).dbOut.query_logs.length = db.query_logs.length + 1 ∧
    (∀ l ∈ (PublicDictionarySearch_get sim fuzzy_enabled db
        req).dbOut.query_logs.drop db.query_logs.length,
      l.has_results = decide (0 < l.results_count)) ∧
    (∀ db' req', (LibrarySearch_get db' req').db = db') := by
  rcases hth : similarityThreshold req.similarity with _ | t
  · exact absurd hth hok
  · refine ⟨?_, ?_, fun db' req' => rfl⟩
    · simp [PublicDictionarySearch_get, hth, DictOutcome.dbOut]
    · intro l hl
      simp only [PublicDictionarySearch_get, hth, DictOutcome.dbOut,
        List.drop_left] at hl
      rw [List.mem_singleton] at hl
      subst hl
      exact not_isEmpty_eq_pos_length _

/-- C6 witness: the amended logging contract at the concrete store
`dbSearch` with the concrete request `reqDict`. -/
theorem C6_amended_dictionary_logs_once_witness :
    similarityThreshold reqDict.similarity ≠ none ∧
    (PublicDictionarySearch_get (fun _ _ => 0) true dbSearch
        reqDict).dbOut.query_logs.length =
      dbSearch.query_logs.length + 1 :=
  ⟨by decide,
    (C6_amended_dictionary_logs_once (fun _ _ => 0) true dbSearch
      reqDict (by decide)).1⟩

/-- Each processed dictionary import row increments `total_rows` and
exactly one of `success_rows`/`failed_rows`, so the accounting
identity is preserved. -/
theorem dictionaryImportRow_counts (w : String)
    (acc : DB × ImportJob × Nat) (row : ImportRow)
    (h : acc.2.1.total_rows =
      acc.2.1.success_rows + acc.2.1.failed_rows) :
    (dictionaryImportRow w acc row).2.1.total_rows =
      (dictionaryImportRow w acc row).2.1.success_rows +
        (dictionaryImportRow w acc row).2.1.failed_rows := by
  obtain ⟨db, job, idx⟩ := acc
  dsimp only at h
  unfold dictionaryImportRow
  by_cases hempty : pyStrip (row.lemmaText.getD "") = ""
  · simp only [if_pos hempty]
    omega
  · simp only [if_neg hempty]
    rcases hfind : db.entries.find?
        (fun e => e.lemmaText == pyStrip (row.lemmaText.getD "")) with
      _ | e
    · simp only [hfind]
      omega
    · simp only [hfind]
      omega

/-- The accounting identity `total = success + failed` holds after
folding the dictionary import over any row list. -/
theorem dictImport_fold_counts (w : String) (rows : List ImportRow) :
    ∀ acc : DB × ImportJob × Nat,
      acc.2.1.total_rows = acc.2.1.success_rows + acc.2.1.failed_rows →
      ((rows.foldl (dictionaryImportRow w) acc).2.1).total_rows =
        ((rows.foldl (dictionaryImportRow w) acc).2.1).success_rows +
          ((rows.foldl (dictionaryImportRow w) acc).2.1).failed_rows := by
  induction rows with
  | nil => intro acc h; simpa using h
  | cons row rest ih =>
      intro acc h
      simpa using ih (dictionaryImportRow w acc row)
        (dictionaryImportRow_counts w acc row h)

/-- C7.  The claim says every import endpoint absorbs per-row problems
into per-row accounting and always answers 200 with
`total = success + failed`.  This holds for the two dictionary
importers, but `LibraryImportJSONView` passes `item_type` to
`LibraryItem.objects.create`, and `LibraryItem` has no `item_type`
field, so importing any item whose title is not already in the store
raises `TypeError` and fails the whole batch with HTTP 500 —
contradicting the repository's own `test_import_library_success`.
The theorem evaluates the failing input: a single well-formed item
with a fresh title. -/
theorem C7_library_import_fails_whole_batch :
    LibraryImportJSONView_post dbSearch
        [{ title := some "Resource 1"
           description := some "Description 1"
           url := some "http://example.com/1"
           item_type := some "book"
           is_published := some true }] 0 =
      LibImportOutcome.failure dbSearch ∧
    (∀ db rows,
      (DictionaryImportCSVView_post db rows).status = HttpStatus.ok200 ∧
      (DictionaryImportCSVView_post db rows).job.total_rows =
        (DictionaryImportCSVView_post db rows).job.success_rows +
          (DictionaryImportCSVView_post db rows).job.failed_rows) ∧
    (∀ db rows,
      (DictionaryImportJSONView_post db rows).status =
        HttpStatus.ok200 ∧
      (DictionaryImportJSONView_post db rows).job.total_rows =
        (DictionaryImportJSONView_post db rows).job.success_rows +
          (DictionaryImportJSONView_post db rows).job.failed_rows) := by
  refine ⟨by decide, ?_, ?_⟩
  · intro db rows
    exact ⟨rfl, dictImport_fold_counts "Row" rows _ rfl⟩
  · intro db rows
    exact ⟨rfl, dictImport_fold_counts "Item" rows _ rfl⟩

/-- C8.  In both search views `limit` is clamped to `[1, 100]` and is
20 when the parameter is absent or non-numeric, `offset` is clamped to
be non-negative and is 0 when absent or non-numeric, and the returned
`count` is the size of the full filtered set: it does not depend on
the `limit`/`offset` parameters at all. -/
theorem C8_pagination_contract :
    (∀ raw, 1 ≤ clampedLimit raw ∧ clampedLimit raw ≤ 100) ∧
    clampedLimit none = 20 ∧
    (∀ s, pyInt s = none → clampedLimit (some s) = 20) ∧
    (∀ raw, 0 ≤ clampedOffset raw) ∧
    clampedOffset none = 0 ∧
    (∀ s, pyInt s = none → clampedOffset (some s) = 0) ∧
    (∀ db q category l₁ o₁ l₂ o₂,
      (LibrarySearch_get db ⟨q, category, l₁, o₁⟩).count =
        (LibrarySearch_get db ⟨q, category, l₂, o₂⟩).count) ∧
    (∀ db req, (LibrarySearch_get db req).count =
      (librarySearchFiltered db (pyStrip (req.q.getD ""))
        req.category).length) ∧
    (∀ sim fe db q fz sm u l₁ o₁ l₂ o₂,
      (PublicDictionarySearch_get sim fe db ⟨q, fz, sm, l₁, o₁, u⟩).countOut =
        (PublicDictionarySearch_get sim fe db
          ⟨q, fz, sm, l₂, o₂, u⟩).countOut) := by
  refine ⟨?_, rfl, ?_, ?_, rfl, ?_, ?_, ?_, ?_⟩
  · intro raw
    unfold clampedLimit
    constructor
    · exact le_max_left 1 _
    · exact max_le (by norm_num) (min_le_right _ 100)
  · intro s hs
    simp [clampedLimit, parsedLimit, hs]
  · intro raw
    unfold clampedOffset
    exact le_max_left 0 _
  · intro s hs
    simp [clampedOffset, parsedOffset, hs]
  · intro db q category l₁ o₁ l₂ o₂
    rfl
  · intro db req
    rfl
  · intro sim fe db q fz sm u l₁ o₁ l₂ o₂
    unfold PublicDictionarySearch_get
    rcases hth : similarityThreshold sm with _ | t
    · simp only [hth, DictOutcome.countOut]
    · simp only [hth, DictOutcome.countOut]
      rfl

/-- C8 witness: the pagination contract at the non-numeric parameter
`"abc"` and at the concrete store `dbSearch`. -/
theorem C8_pagination_contract_witness :
    pyInt "abc" = none ∧
    clampedLimit (some "abc") = 20 ∧
    clampedOffset (some "abc") = 0 ∧
    (LibrarySearch_get dbSearch
        ⟨some "Lango", none, some "1", some "7"⟩).count =
      (LibrarySearch_get dbSearch
        ⟨some "Lango", none, some "50", some "0"⟩).count :=
  ⟨by decide,
    C8_pagination_contract.2.2.1 "abc" (by decide),
    C8_pagination_contract.2.2.2.2.2.1 "abc" (by decide),
    C8_pagination_contract.2.2.2.2.2.2.1 dbSearch (some "Lango") none
      (some "1") (some "7") (some "50") (some "0")⟩

/-- C9.  The claim says both moderation transitions are permitted for
any holder of the moderator capability — administrator, manager group
or editor group — and the permission class `IsModeratorOrAdmin` is
documented in the code as being for moderation endpoints and grants
exactly that set.  But the routed moderation views use
`IsManagerOrAdmin` (itself documented as being for admin/analytics
endpoints), which omits the editor group: an authenticated
editor-group member holds the moderator capability yet receives
Forbidden.  Unauthenticated callers do receive Unauthenticated, as
claimed. -/
theorem C9_editor_is_moderator_but_forbidden :
    IsModeratorOrAdmin_has_permission
        (some ⟨true, false, false, ["editor"]⟩) = true ∧
    IsManagerOrAdmin_has_permission
        (some ⟨true, false, false, ["editor"]⟩) = false ∧
    moderationGate (some ⟨true, false, false, ["editor"]⟩) =
      some HttpStatus.forbidden403 ∧
    moderationGate none = some HttpStatus.unauthorized401 ∧
    moderationGate (some ⟨true, false, false, ["manager"]⟩) = none ∧
    moderationGate (some ⟨true, false, true, []⟩) = none := by
  decide

/-- Evaluation of the default threshold: the kernel reduces the string
parsing of `pyFloat "0.3"`, and `norm_num` settles the rational
arithmetic (whose normalisation is not kernel-reducible). -/
theorem similarityThreshold_absent :
    similarityThreshold none = some (3/10 : ℚ) := by
  have h : similarityThreshold none =
      some (max (1/10 : ℚ)
        (min ((1 : ℚ) * ((digitsVal ['0'] : ℚ) +
          (digitsVal ['3'] : ℚ) / (10 : ℚ) ^ (1 : Nat))) 1)) := rfl
  rw [h, show digitsVal ['0'] = 0 from rfl,
    show digitsVal ['3'] = 3 from rfl]
  norm_num [min_def, max_def]

/-- Evaluation of `pyFloat` at the plain decimal literal `"0.5"`. -/
theorem pyFloat_half : pyFloat "0.5" = some (1/2 : ℚ) := by
  have h : pyFloat "0.5" =
      some ((1 : ℚ) * ((digitsVal ['0'] : ℚ) +
        (digitsVal ['5'] : ℚ) / (10 : ℚ) ^ (1 : Nat))) := rfl
  rw [h, show digitsVal ['0'] = 0 from rfl,
    show digitsVal ['5'] = 5 from rfl]
  norm_num

/-- C10.  For every numeric `similarity` parameter the fuzzy threshold
is the value clamped to `[0.1, 1.0]`, defaulting to `0.3` when the
parameter is absent; but a non-numeric `similarity` (for example
`"abc"`) makes the unguarded `float(...)` raise, failing the request
with a server error and no fallback — unlike `limit` and `offset`,
whose non-numeric values fall back to their defaults. -/
theorem C10_similarity_unguarded :
    (∀ s x, pyFloat s = some x →
      similarityThreshold (some s) =
        some (max (1/10 : ℚ) (min x 1))) ∧
    similarityThreshold none = some (3/10 : ℚ) ∧
    pyFloat "abc" = none ∧
    (∀ sim fe db q fz l o u,
      PublicDictionarySearch_get sim fe db
          ⟨q, fz, some "abc", l, o, u⟩ =
        DictOutcome.failure db HttpStatus.serverError500) ∧
    pyInt "abc" = none ∧
    clampedLimit (some "abc") = 20 ∧
    clampedOffset (some "abc") = 0 := by
  refine ⟨?_, similarityThreshold_absent, by decide, ?_, by decide,
    by decide, by decide⟩
  · intro s x hs
    simp [similarityThreshold, hs]
  · intro sim fe db q fz l o u
    unfold PublicDictionarySearch_get
    rw [show similarityThreshold (some "abc") = none by decide]

/-- C10 witness: a concrete numeric parameter `"0.5"` hitting the
clamp. -/
theorem C10_similarity_unguarded_witness :
    pyFloat "0.5" = some (1/2 : ℚ) ∧
    similarityThreshold (some "0.5") =
      some (max (1/10 : ℚ) (min (1/2 : ℚ) 1)) :=
  ⟨pyFloat_half, C10_similarity_unguarded.1 "0.5" (1/2) pyFloat_half⟩

end Leblango
